import Mathlib

set_option maxRecDepth 8000

/-!
Shallow embedding of the resilient data-access layer of the golf dashboard
(src/app.js: the `GolfDashboard` client loader and the service worker).

Client side (app.js lines 53-137, 172-182):
  * `fetchWithRetry` — bounded retry loop, maxRetries = 3, exponential backoff
    (the delay itself is not modelled; only attempt counts and outcomes are).
  * `getCachedData` / `setCachedData` — localStorage wrappers with catch-all
    error swallowing.
  * `loadData` — cache-first load with network fallback.
  * `refreshData` — status update wrapper around `loadData`.

The network is modelled as a function from the attempt index to the outcome of
that attempt; localStorage is a record holding the two keys the code uses, and
the possibility of `setItem` throwing (quota exceeded) is a per-key flag on the
storage medium.
-/

/-- One tournament record, `{ name, date, trophy, course, score, history? }`
(spec §6, and `handleFormSubmit` in app.js). -/
structure Tournament where
  name : String
  date : String
  trophy : String
  course : String
  score : Int
  history : Option String
deriving DecidableEq, Repr

/-- The slice of localStorage the loader touches: keys `golf-tournaments`
and `golf-tournaments-timestamp`. -/
structure LocalStore where
  tournaments : Option (List Tournament)
  timestampMs : Option Nat
deriving DecidableEq, Repr

/-- Behaviour of the backing storage medium: whether each of the two
`localStorage.setItem` calls throws (e.g. quota exceeded), and the clock
value used for the timestamp entry. -/
structure StorageMedium where
  dataWriteFails : Bool
  tsWriteFails : Bool
  nowMs : Nat
deriving DecidableEq, Repr

/-- `localStorage.setItem('golf-tournaments', …)`: either persists the
payload or throws. -/
def setTournamentsItem (m : StorageMedium) (s : LocalStore)
    (data : List Tournament) : Except String LocalStore :=
  if m.dataWriteFails then .error "QuotaExceededError"
  else .ok { s with tournaments := some data }

/-- `localStorage.setItem('golf-tournaments-timestamp', …)`: either persists
the clock value or throws. -/
def setTimestampItem (m : StorageMedium) (s : LocalStore) :
    Except String LocalStore :=
  if m.tsWriteFails then .error "QuotaExceededError"
  else .ok { s with timestampMs := some m.nowMs }

/-- app.js `setCachedData` (lines 130-137): two `setItem` calls inside a
`try`; any throw is caught and only logged, so the function itself never
fails. A throw on the first call leaves the store unchanged; a throw on the
second leaves the payload written but not the timestamp. -/
def setCachedData (m : StorageMedium) (s : LocalStore)
    (data : List Tournament) : LocalStore :=
  match setTournamentsItem m s data with
  | .error _ => s
  | .ok s1 =>
    match setTimestampItem m s1 with
    | .error _ => s1
    | .ok s2 => s2

/-- app.js `getCachedData` (lines 120-128): read and parse the cached
payload, `none` on a miss (parse failures of a corrupt entry also yield
`none` in the source; the typed store has no corrupt entries). -/
def getCachedData (s : LocalStore) : Option (List Tournament) :=
  s.tournaments

/-- Outcome of a single network attempt in `fetchWithRetry`: the fetch
resolves with an ok response carrying the parsed payload, resolves with a
non-success status, or rejects. -/
inductive NetAttempt where
  | success (payload : List Tournament)
  | httpFail (status : Nat) (reason : String)
  | netFail (msg : String)
deriving DecidableEq, Repr

/-- The body of one loop iteration of `fetchWithRetry` (app.js lines 89-102):
an ok response is returned, a non-ok response becomes
`Error("HTTP <status>: <statusText>")`, a rejected fetch propagates its own
message. -/
def attemptOutcome : NetAttempt → Except String (List Tournament)
  | .success p => .ok p
  | .httpFail status reason =>
      .error ("HTTP " ++ toString status ++ ": " ++ reason)
  | .netFail msg => .error msg

/-- Whether an attempt ends in the `catch` block of the loop body. -/
def isFailure : NetAttempt → Bool
  | .success _ => false
  | .httpFail _ _ => true
  | .netFail _ => true

/-- The error message an attempt produces when it fails. -/
def failMsg : NetAttempt → String
  | .success _ => ""
  | .httpFail status reason => "HTTP " ++ toString status ++ ": " ++ reason
  | .netFail msg => msg

/-- `this.maxRetries` (app.js line 7). -/
def maxRetries : Nat := 3

/-- The retry loop of `fetchWithRetry` from index `i` with
`fuel = maxRetries - i` iterations remaining, returning the result together
with the number of attempts issued. When the attempt at the last index
(`fuel = 1`, i.e. `i = maxRetries - 1`) fails, the error is rethrown; earlier
failures wait `2 ^ i` seconds (not modelled) and continue. -/
def fetchWithRetryGo (net : Nat → NetAttempt) :
    Nat → Nat → Except String (List Tournament) × Nat
  | _, 0 => (.error "", 0)
  | i, fuel + 1 =>
    match attemptOutcome (net i) with
    | .ok p => (.ok p, 1)
    | .error e =>
      if fuel = 0 then (.error e, 1)
      else
        let r := fetchWithRetryGo net (i + 1) fuel
        (r.1, r.2 + 1)

/-- app.js `fetchWithRetry` (lines 86-114): up to `maxRetries` attempts,
also reporting how many attempts were issued. -/
def fetchWithRetry (net : Nat → NetAttempt) :
    Except String (List Tournament) × Nat :=
  fetchWithRetryGo net 0 maxRetries

/-- The dashboard state the loader manipulates: the in-memory collection,
the localStorage slice, and the connection-status string
(`online` / `offline` / `reconnecting`). -/
structure AppState where
  tournaments : List Tournament
  store : LocalStore
  status : String
deriving DecidableEq, Repr

/-- app.js `loadData` (lines 53-84), returning the attempt count of the
embedded `fetchWithRetry` call (0 when the cache satisfies the load).
Cache hit: return the cached collection. Cache miss: fetch with retry; on
success write through via `setCachedData`; on error fall back to the cache
once more (status becomes `offline`), else throw `No data available`. -/
def loadData (m : StorageMedium) (net : Nat → NetAttempt) (s : AppState) :
    Except String AppState × Nat :=
  match getCachedData s.store with
  | some cached => (.ok { s with tournaments := cached }, 0)
  | none =>
    let r := fetchWithRetry net
    match r.1 with
    | .ok payload =>
        (.ok { s with
                tournaments := payload,
                store := setCachedData m s.store payload }, r.2)
    | .error _ =>
      match getCachedData s.store with
      | some fallback =>
          (.ok { s with tournaments := fallback, status := "offline" }, r.2)
      | none => (.error "No data available", r.2)

/-- app.js `refreshData` (lines 172-182): set status `reconnecting`, run
`loadData`, then set status `online`; on error set status `offline`
(the in-memory collection is left as it was). Returns the state together
with the number of network attempts issued. -/
def refreshData (m : StorageMedium) (net : Nat → NetAttempt) (s : AppState) :
    AppState × Nat :=
  let s1 : AppState := { s with status := "reconnecting" }
  let r := loadData m net s1
  match r.1 with
  | .ok s2 => ({ s2 with status := "online" }, r.2)
  | .error _ => ({ s1 with status := "offline" }, r.2)

/-! Service-worker side (app.js lines 641-991): request classification,
per-class caching strategies over the three cache namespaces, and the
offline responder. -/

/-- Containment of one character list in another, by scanning suffixes. -/
def listContains (pat : List Char) : List Char → Bool
  | [] => pat.isEmpty
  | c :: cs => pat.isPrefixOf (c :: cs) || listContains pat cs

/-- JS `String.prototype.includes`: substring containment. -/
def strContains (s sub : String) : Bool :=
  listContains sub.data s.data

/-- JS `String.prototype.endsWith`: suffix test, on the underlying
character lists. -/
def strEndsWith (s suff : String) : Bool :=
  suff.data.reverse.isPrefixOf s.data.reverse

/-- The parts of a fetch-event `Request` the worker inspects: method, URL,
mode, and the `accept` header (`headers.get` returns null — here `none` —
when the header is absent). -/
structure SWRequest where
  method : String
  url : String
  mode : String
  accept : Option String
deriving DecidableEq, Repr

/-- app.js `isDataRequest` (lines 745-748). -/
def isDataRequest (r : SWRequest) : Bool :=
  strContains r.url "/data/" || strEndsWith r.url ".json"

/-- app.js `isStaticResource` (lines 751-761). -/
def isStaticResource (r : SWRequest) : Bool :=
  strContains r.url ".css" || strContains r.url ".js" ||
  strContains r.url ".png" || strContains r.url ".jpg" ||
  strContains r.url ".jpeg" || strContains r.url ".gif" ||
  strContains r.url ".svg" || strContains r.url ".ico" ||
  strContains r.url "cdn.jsdelivr.net"

/-- app.js `isNavigationRequest` (lines 764-769); note the null guard
(`headers.get('accept') && …`) before the `includes` call. -/
def isNavigationRequest (r : SWRequest) : Bool :=
  r.mode == "navigate" || strEndsWith r.url ".html" ||
  (match r.accept with
   | some a => strContains a "text/html"
   | none => false)

/-- The four request classes of the fetch listener. -/
inductive ReqClass where
  | data
  | staticAsset
  | navigation
  | generic
deriving DecidableEq, Repr

/-- The classification chain of the fetch listener (app.js lines 728-740):
data check first, then static, then navigation, else generic. -/
def route (r : SWRequest) : ReqClass :=
  if isDataRequest r then .data
  else if isStaticResource r then .staticAsset
  else if isNavigationRequest r then .navigation
  else .generic

/-- The parts of a `Response` the worker inspects or builds. -/
structure SWResponse where
  status : Nat
  statusText : String
  contentType : String
  body : String
deriving DecidableEq, Repr

/-- `Response.ok`: status in the 2xx range. -/
def respOk (resp : SWResponse) : Bool :=
  200 ≤ resp.status && resp.status < 300

/-- The body of the offline HTML page built by `createOfflineResponse`
(app.js lines 896-962), verbatim (braces, apostrophes and quotes escaped). -/
def offlineHtmlBody : String :=
  "\n            <!DOCTYPE html>\n            <html lang=\"en\">\n            <head>\n                <meta charset=\"UTF-8\">\n                <meta name=\"viewport\" content=\"width=device-width, initial-scale=1.0\">\n                <title>Offline - Golf Dashboard</title>\n                <style>\n                    body \x7b\n                        font-family: \x27Segoe UI\x27, Tahoma, Geneva, Verdana, sans-serif;\n                        background: linear-gradient(135deg, #1e3c72 0%, #2a5298 100%);\n                        color: white;\n                        display: flex;\n                        justify-content: center;\n                        align-items: center;\n                        min-height: 100vh;\n                        margin: 0;\n                        text-align: center;\n                    \x7d\n                    .offline-container \x7b\n                        background: rgba(255, 255, 255, 0.1);\n                        backdrop-filter: blur(10px);\n                        padding: 40px;\n                        border-radius: 15px;\n                        box-shadow: 0 8px 32px rgba(0,0,0,0.3);\n                    \x7d\n                    .offline-icon \x7b\n                        font-size: 64px;\n                        margin-bottom: 20px;\n                    \x7d\n                    h1 \x7b\n                        margin-bottom: 20px;\n                        color: #fff;\n                    \x7d\n                    p \x7b\n                        margin-bottom: 30px;\n                        opacity: 0.9;\n                    \x7d\n                    .retry-btn \x7b\n                        background: #4CAF50;\n                        color: white;\n                        border: none;\n                        padding: 12px 24px;\n                        border-radius: 8px;\n                        cursor: pointer;\n                        font-size: 16px;\n                        font-weight: 600;\n                        transition: background 0.3s ease;\n                    \x7d\n                    .retry-btn:hover \x7b\n                        background: #45a049;\n                    \x7d\n                </style>\n            </head>\n            <body>\n                <div class=\"offline-container\">\n                    <div class=\"offline-icon\">🌐</div>\n                    <h1>You\x27re Offline</h1>\n                    <p>It looks like you\x27re not connected to the internet.<br>\n                    Some features may not be available until you reconnect.</p>\n                    <button class=\"retry-btn\" onclick=\"window.location.reload()\">\n                        Try Again\n                    </button>\n                </div>\n            </body>\n            </html>\n        "

/-- The offline HTML response: status 200, `Content-Type: text/html`. -/
def offlineHtmlResponse : SWResponse :=
  { status := 200, statusText := "", contentType := "text/html",
    body := offlineHtmlBody }

/-- The body of the offline structured-data response
(app.js line 973), verbatim. -/
def offlineJsonBody : String :=
  "\x7b\"error\": \"Offline\", \"data\": []\x7d"

/-- The offline structured-data response: status 200,
`Content-Type: application/json`. -/
def offlineJsonResponse : SWResponse :=
  { status := 200, statusText := "", contentType := "application/json",
    body := offlineJsonBody }

/-- The generic offline response (app.js lines 983-990): status 503. -/
def offlineGenericResponse : SWResponse :=
  { status := 503, statusText := "Service Unavailable",
    contentType := "text/plain", body := "Offline" }

/-- app.js `createOfflineResponse` (lines 893-991). Both branches call
`request.headers.get('accept').includes(…)` with no null guard, so a
request without an `accept` header makes the function throw a `TypeError`
(modelled as `.error`). -/
def createOfflineResponse (r : SWRequest) : Except String SWResponse :=
  match r.accept with
  | none => .error "TypeError: cannot read includes of null"
  | some a =>
    if strContains a "text/html" then .ok offlineHtmlResponse
    else if strContains a "application/json" then .ok offlineJsonResponse
    else .ok offlineGenericResponse

/-- The three cache namespaces the worker writes:
`golf-data-v1.2`, `golf-static-v1.2` and the generic `golf-dashboard-v1.2`,
each an association list from request URL to stored response. -/
structure CacheState where
  dataCache : List (String × SWResponse)
  staticCache : List (String × SWResponse)
  genericCache : List (String × SWResponse)
deriving DecidableEq, Repr

/-- `Cache.put`: overwrite the entry for a URL. -/
def cachePut (c : List (String × SWResponse)) (url : String)
    (resp : SWResponse) : List (String × SWResponse) :=
  (url, resp) :: c.filter (fun e => e.1 != url)

/-- `caches.match(request)`: search every cache of the CacheStorage in
creation order (the install hook creates the static cache, then the data
cache; the generic cache is created on first use by the generic strategy). -/
def cachesMatch (st : CacheState) (url : String) : Option SWResponse :=
  match st.staticCache.lookup url with
  | some resp => some resp
  | none =>
    match st.dataCache.lookup url with
    | some resp => some resp
    | none => st.genericCache.lookup url

/-- The network as the worker sees it: a plain `fetch(request)` keyed by
URL; `none` means the fetch rejects. -/
def SWNet : Type := String → Option SWResponse

/-- The shared fallback of `handleDataRequest` (app.js lines 789-801):
try `caches.match`, else synthesize an offline response. -/
def dataFallback (st : CacheState) (r : SWRequest) :
    Except String SWResponse × CacheState :=
  match cachesMatch st r.url with
  | some cached => (.ok cached, st)
  | none => (createOfflineResponse r, st)

/-- app.js `handleDataRequest` (lines 772-802): network first; an ok
response is written through to the data cache and returned; a non-ok
response or a rejected fetch falls back to the cache, else to the offline
responder. -/
def handleDataRequest (net : SWNet) (st : CacheState) (r : SWRequest) :
    Except String SWResponse × CacheState :=
  match net r.url with
  | some resp =>
    if respOk resp then
      (.ok resp, { st with dataCache := cachePut st.dataCache r.url resp })
    else dataFallback st r
  | none => dataFallback st r

/-- app.js `handleStaticRequest` (lines 805-832): cache first; on miss
fetch, cache an ok response in the static cache, and return the network
response (ok or not); a rejected fetch yields the offline responder. -/
def handleStaticRequest (net : SWNet) (st : CacheState) (r : SWRequest) :
    Except String SWResponse × CacheState :=
  match cachesMatch st r.url with
  | some cached => (.ok cached, st)
  | none =>
    match net r.url with
    | some resp =>
      if respOk resp then
        (.ok resp, { st with staticCache := cachePut st.staticCache r.url resp })
      else (.ok resp, st)
    | none => (createOfflineResponse r, st)

/-- The fallback chain of `handleNavigationRequest` (app.js lines 849-864):
cached copy of the page, else the cached `/index.html` shell, else the
offline responder. -/
def navFallback (st : CacheState) (r : SWRequest) :
    Except String SWResponse × CacheState :=
  match cachesMatch st r.url with
  | some cached => (.ok cached, st)
  | none =>
    match cachesMatch st "/index.html" with
    | some idx => (.ok idx, st)
    | none => (createOfflineResponse r, st)

/-- app.js `handleNavigationRequest` (lines 835-866): network first; an ok
response is cached — in the STATIC cache — and returned; otherwise the
navigation fallback chain runs. -/
def handleNavigationRequest (net : SWNet) (st : CacheState) (r : SWRequest) :
    Except String SWResponse × CacheState :=
  match net r.url with
  | some resp =>
    if respOk resp then
      (.ok resp, { st with staticCache := cachePut st.staticCache r.url resp })
    else navFallback st r
  | none => navFallback st r

/-- app.js `handleGenericRequest` (lines 869-890): network first with
opportunistic caching in the generic cache; on a rejected fetch, cache
lookup, else the offline responder. -/
def handleGenericRequest (net : SWNet) (st : CacheState) (r : SWRequest) :
    Except String SWResponse × CacheState :=
  match net r.url with
  | some resp =>
    if respOk resp then
      (.ok resp, { st with genericCache := cachePut st.genericCache r.url resp })
    else (.ok resp, st)
  | none =>
    match cachesMatch st r.url with
    | some cached => (.ok cached, st)
    | none => (createOfflineResponse r, st)

/-- What the fetch listener does with an event: respond with a strategy
result, or not call `respondWith` at all, letting the request pass through
to the network untouched. -/
inductive FetchOutcome where
  | handled (result : Except String SWResponse)
  | passthrough
deriving Repr

/-- The fetch event listener (app.js lines 722-742): only GET requests are
classified and handled; everything else passes through. -/
def handleFetchEvent (net : SWNet) (st : CacheState) (r : SWRequest) :
    FetchOutcome × CacheState :=
  if r.method == "GET" then
    let h :=
      match route r with
      | .data => handleDataRequest net st r
      | .staticAsset => handleStaticRequest net st r
      | .navigation => handleNavigationRequest net st r
      | .generic => handleGenericRequest net st r
    (.handled h.1, h.2)
  else (.passthrough, st)

/-! JSON values and a small recursive-descent parser, used to state that a
payload "parses as the same structural shape as a normal successful payload"
(spec §4.5/§6). The subset parsed — strings without escapes, integers,
booleans, null, arrays, objects — covers the payload grammar of §6 and the
offline bodies. -/

/-- A JSON value. -/
inductive Json where
  | jnull
  | jbool (b : Bool)
  | jnum (n : Int)
  | jstr (s : String)
  | jarr (elems : List Json)
  | jobj (fields : List (String × Json))

/-- Drop leading JSON whitespace. -/
def skipWs : List Char → List Char
  | c :: cs =>
    if c = ' ' || c = '\n' || c = '\t' || c = '\r' then skipWs cs else c :: cs
  | [] => []

/-- Consume the characters of a string literal up to the closing quote
(escape sequences are not part of the modelled payloads). -/
def parseStrChars : List Char → Option (List Char × List Char)
  | [] => none
  | c :: cs =>
    if c = '"' then some ([], cs)
    else
      match parseStrChars cs with
      | some (acc, rest) => some (c :: acc, rest)
      | none => none

/-- Split off a maximal run of leading digits. -/
def takeDigits : List Char → List Char × List Char
  | [] => ([], [])
  | c :: cs =>
    if c.isDigit then
      let r := takeDigits cs
      (c :: r.1, r.2)
    else ([], c :: cs)

/-- Numeric value of a digit run. -/
def digitsToNat (ds : List Char) : Nat :=
  ds.foldl (fun acc c => acc * 10 + (c.toNat - 48)) 0

mutual

/-- Parse one JSON value, returning it with the unconsumed input. -/
def parseJsonVal : Nat → List Char → Option (Json × List Char)
  | 0, _ => none
  | fuel + 1, input =>
    match skipWs input with
    | [] => none
    | c :: cs =>
      if c = '"' then
        match parseStrChars cs with
        | some (chars, rest) => some (.jstr (String.mk chars), rest)
        | none => none
      else if c = '\x7b' then
        match skipWs cs with
        | '\x7d' :: rest => some (.jobj [], rest)
        | rest =>
          match parseObjRest fuel rest with
          | some (fields, rest2) => some (.jobj fields, rest2)
          | none => none
      else if c = '[' then
        match skipWs cs with
        | ']' :: rest => some (.jarr [], rest)
        | rest =>
          match parseArrRest fuel rest with
          | some (vs, rest2) => some (.jarr vs, rest2)
          | none => none
      else if c = 't' then
        match cs with
        | 'r' :: 'u' :: 'e' :: rest => some (.jbool true, rest)
        | _ => none
      else if c = 'f' then
        match cs with
        | 'a' :: 'l' :: 's' :: 'e' :: rest => some (.jbool false, rest)
        | _ => none
      else if c = 'n' then
        match cs with
        | 'u' :: 'l' :: 'l' :: rest => some (.jnull, rest)
        | _ => none
      else if c = '-' then
        match takeDigits cs with
        | ([], _) => none
        | (ds, rest) => some (.jnum (-(digitsToNat ds : Int)), rest)
      else if c.isDigit then
        let r := takeDigits (c :: cs)
        some (.jnum (digitsToNat r.1 : Int), r.2)
      else none

/-- Parse the elements of a non-empty array after its opening bracket. -/
def parseArrRest : Nat → List Char → Option (List Json × List Char)
  | 0, _ => none
  | fuel + 1, input =>
    match parseJsonVal fuel input with
    | none => none
    | some (v, rest) =>
      match skipWs rest with
      | ',' :: more =>
        match parseArrRest fuel more with
        | some (vs, rest2) => some (v :: vs, rest2)
        | none => none
      | ']' :: more => some ([v], more)
      | _ => none

/-- Parse the fields of a non-empty object after its opening brace. -/
def parseObjRest : Nat → List Char → Option (List (String × Json) × List Char)
  | 0, _ => none
  | fuel + 1, input =>
    match skipWs input with
    | '"' :: cs =>
      match parseStrChars cs with
      | none => none
      | some (keyChars, rest) =>
        match skipWs rest with
        | ':' :: rest2 =>
          match parseJsonVal fuel rest2 with
          | none => none
          | some (v, rest3) =>
            match skipWs rest3 with
            | ',' :: rest4 =>
              match parseObjRest fuel rest4 with
              | some (fields, rest5) =>
                  some ((String.mk keyChars, v) :: fields, rest5)
              | none => none
            | '\x7d' :: rest4 => some ([(String.mk keyChars, v)], rest4)
            | _ => none
        | _ => none
    | _ => none

end

/-- Parse a complete JSON document (`JSON.parse`): one value followed only
by whitespace. The fuel bound exceeds any nesting depth of the input. -/
def parseJson (s : String) : Option Json :=
  match parseJsonVal (s.length + 1) s.data with
  | some (v, rest) => if skipWs rest = [] then some v else none
  | none => none

/-- Modelled from the spec (§6): a normal successful payload is a JSON
array of records, so a body has "the same structural shape as a normal
successful payload, with zero records" iff it parses as a JSON array with
no elements. -/
def hasEmptyRecordArrayShape (body : String) : Bool :=
  match parseJson body with
  | some (.jarr elems) => elems.isEmpty
  | _ => false

/-- Modelled from the spec (§4.5): minimal well-formedness of the offline
markup — a doctype plus matched html, head and body tags. -/
def isWellFormedMarkup (s : String) : Bool :=
  strContains s "<!DOCTYPE html>" && strContains s "<html" &&
  strContains s "</html>" && strContains s "<head>" &&
  strContains s "</head>" && strContains s "<body>" &&
  strContains s "</body>"

/-- Modelled from the spec (§4.5): the markup contains a retry action — a
retry button wired to reload the page. -/
def hasRetryAction (s : String) : Bool :=
  strContains s "retry-btn" && strContains s "window.location.reload()" &&
  strContains s "Try Again"

/-! Theorems. Shared helper lemmas come first; each claim then gets exactly
one theorem (with a counterexample and a witness where called for). -/

/-- A failing attempt yields the error the loop body would throw for it. -/
theorem attemptOutcome_of_isFailure (a : NetAttempt) (h : isFailure a = true) :
    attemptOutcome a = .error (failMsg a) := by
  cases a with
  | success p => simp [isFailure] at h
  | httpFail status reason => rfl
  | netFail msg => rfl

/-- Helper: a failing attempt that is not the last one recurses after
incrementing the attempt count. -/
theorem fetchWithRetryGo_stepFail (net : Nat → NetAttempt) (i fuel : Nat)
    (h : isFailure (net i) = true) (hf : fuel ≠ 0) :
    fetchWithRetryGo net i (fuel + 1) =
      ((fetchWithRetryGo net (i + 1) fuel).1,
       (fetchWithRetryGo net (i + 1) fuel).2 + 1) := by
  have he := attemptOutcome_of_isFailure (net i) h
  simp [fetchWithRetryGo, he, hf]

/-- Helper: a failing attempt at the last index rethrows its own error. -/
theorem fetchWithRetryGo_lastFail (net : Nat → NetAttempt) (i : Nat)
    (h : isFailure (net i) = true) :
    fetchWithRetryGo net i 1 = (.error (failMsg (net i)), 1) := by
  have he := attemptOutcome_of_isFailure (net i) h
  simp [fetchWithRetryGo, he]

/-- Helper: a successful attempt returns at once with one attempt. -/
theorem fetchWithRetryGo_stepSucc (net : Nat → NetAttempt) (i fuel : Nat)
    (p : List Tournament) (h : net i = .success p) :
    fetchWithRetryGo net i (fuel + 1) = (.ok p, 1) := by
  simp [fetchWithRetryGo, h, attemptOutcome]

/-- Helper: when the first `k < 3` attempts fail and attempt `k` succeeds,
the retry loop returns the success payload after `k + 1` attempts. -/
theorem fetchWithRetry_firstSuccess (net : Nat → NetAttempt) (k : Nat)
    (p : List Tournament) (hk : k < 3)
    (hfail : ∀ j, j < k → isFailure (net j) = true)
    (hsucc : net k = .success p) :
    fetchWithRetry net = (.ok p, k + 1) := by
  interval_cases k
  · have e0 := fetchWithRetryGo_stepSucc net 0 2 p hsucc
    norm_num at e0
    show fetchWithRetryGo net 0 3 = _
    rw [e0]
  · have e0 := fetchWithRetryGo_stepFail net 0 2 (hfail 0 (by norm_num))
      (by norm_num)
    have e1 := fetchWithRetryGo_stepSucc net 1 1 p hsucc
    norm_num at e0 e1
    show fetchWithRetryGo net 0 3 = _
    rw [e0, e1]
  · have e0 := fetchWithRetryGo_stepFail net 0 2 (hfail 0 (by norm_num))
      (by norm_num)
    have e1 := fetchWithRetryGo_stepFail net 1 1 (hfail 1 (by norm_num))
      (by norm_num)
    have e2 := fetchWithRetryGo_stepSucc net 2 0 p hsucc
    norm_num at e0 e1 e2
    show fetchWithRetryGo net 0 3 = _
    rw [e0, e1, e2]

/-- Helper: when every one of the three attempts fails, the retry loop
stops after exactly 3 attempts and surfaces the last attempt's error. -/
theorem fetchWithRetry_allFail (net : Nat → NetAttempt)
    (hfail : ∀ j, j < 3 → isFailure (net j) = true) :
    fetchWithRetry net = (.error (failMsg (net 2)), 3) := by
  have e0 := fetchWithRetryGo_stepFail net 0 2 (hfail 0 (by norm_num))
    (by norm_num)
  have e1 := fetchWithRetryGo_stepFail net 1 1 (hfail 1 (by norm_num))
    (by norm_num)
  have e2 := fetchWithRetryGo_lastFail net 2 (hfail 2 (by norm_num))
  norm_num at e0 e1
  show fetchWithRetryGo net 0 3 = _
  rw [e0, e1, e2]

/-- C4: if the network fails exactly `k < 3` times and then succeeds,
exactly `k + 1` attempts occur and the final result is the success payload;
if the network always fails, exactly 3 attempts occur, no further retry is
issued, and the error surfaced is the last attempt's failure, a non-success
HTTP status counting as a retryable failure with message
`HTTP <status>: <reason>`. -/
theorem fetchWithRetry_attempts (net : Nat → NetAttempt) :
    (∀ k p, k < 3 → (∀ j, j < k → isFailure (net j) = true) →
       net k = .success p → fetchWithRetry net = (.ok p, k + 1)) ∧
    ((∀ j, j < 3 → isFailure (net j) = true) →
       fetchWithRetry net = (.error (failMsg (net 2)), 3)) ∧
    (∀ status reason,
       isFailure (.httpFail status reason) = true ∧
       failMsg (.httpFail status reason) =
         "HTTP " ++ toString status ++ ": " ++ reason) := by
  refine ⟨fun k p hk hfail hsucc =>
      fetchWithRetry_firstSuccess net k p hk hfail hsucc,
    fun hfail => fetchWithRetry_allFail net hfail,
    fun status reason => ⟨rfl, rfl⟩⟩

/-- Witness for C4 at concrete networks: two rejections then a success give
3 attempts and the payload; three HTTP 503 failures give 3 attempts and the
message of the last one. -/
theorem fetchWithRetry_attempts_witness :
    fetchWithRetry
        (fun i => if i < 2 then .netFail "Failed to fetch"
                  else .success []) = (.ok [], 3) ∧
    fetchWithRetry (fun _ => .httpFail 503 "Service Unavailable") =
      (.error "HTTP 503: Service Unavailable", 3) := by
  constructor
  · exact (fetchWithRetry_attempts _).1 2 [] (by norm_num)
      (fun j hj => by interval_cases j <;> rfl) (by rfl)
  · have h := (fetchWithRetry_attempts
      (fun _ => .httpFail 503 "Service Unavailable")).2.1 (fun j _ => rfl)
    simpa [failMsg] using h

/-- A sample record for concrete scenarios. -/
def sampleRecord : Tournament :=
  { name := "Jordan Spieth", date := "2015-04-12", trophy := "Petty Cup",
    course := "Augusta National", score := 270, history := none }

/-- An empty localStorage slice (cold start). -/
def emptyStore : LocalStore := { tournaments := none, timestampMs := none }

/-- A warm localStorage slice holding one cached record. -/
def warmStore : LocalStore :=
  { tournaments := some [sampleRecord], timestampMs := some 0 }

/-- A network on which every attempt rejects. -/
def failingNet : Nat → NetAttempt := fun _ => .netFail "Failed to fetch"

/-- A storage medium that accepts all writes. -/
def mediumOk : StorageMedium :=
  { dataWriteFails := false, tsWriteFails := false, nowMs := 0 }

/-- A storage medium on which the payload write throws (quota exceeded). -/
def mediumQuota : StorageMedium :=
  { dataWriteFails := true, tsWriteFails := true, nowMs := 0 }

/-- Cold-start dashboard state over an empty store. -/
def coldState : AppState :=
  { tournaments := [], store := emptyStore, status := "online" }

/-- Warm-start dashboard state over the populated store. -/
def warmState : AppState :=
  { tournaments := [], store := warmStore, status := "online" }

/-- C7: on a cold start with an empty Durable Store and a network on which
every attempt fails, `load()` exhausts its 3 retries and fails with the
`No data available` error — the only error that escapes the layer. -/
theorem loadData_no_data_available (m : StorageMedium)
    (net : Nat → NetAttempt) (s : AppState)
    (hstore : getCachedData s.store = none)
    (hnet : ∀ j, j < 3 → isFailure (net j) = true) :
    loadData m net s = (.error "No data available", 3) := by
  have hf := fetchWithRetry_allFail net hnet
  simp [loadData, hstore, hf]

/-- Witness for C7: the cold-start state with the always-rejecting network. -/
theorem loadData_no_data_available_witness :
    loadData mediumOk failingNet coldState = (.error "No data available", 3) :=
  loadData_no_data_available mediumOk failingNet coldState rfl
    (fun _ _ => rfl)

/-- C8: a rejection of the Durable Store write (quota exceeded) is swallowed
inside `setCachedData` — the store is simply left as it was — and the load
that triggered the write still completes normally with the freshly-fetched
payload in memory, for every storage medium. -/
theorem setCachedData_swallows_write_failure (m : StorageMedium)
    (net : Nat → NetAttempt) (s : AppState) (payload : List Tournament)
    (hstore : getCachedData s.store = none)
    (hnet : net 0 = .success payload) :
    (m.dataWriteFails = true → setCachedData m s.store payload = s.store) ∧
    loadData m net s =
      (.ok { s with tournaments := payload,
                    store := setCachedData m s.store payload }, 1) := by
  constructor
  · intro hq
    simp [setCachedData, setTournamentsItem, hq]
  · have hf := fetchWithRetry_firstSuccess net 0 payload (by norm_num)
      (fun _ hj => absurd hj (by omega)) hnet
    simp [loadData, hstore, hf]

/-- Witness for C8: a quota-exceeded medium, a cold store and a network that
succeeds at once; the load returns the payload and the store is unchanged. -/
theorem setCachedData_swallows_write_failure_witness :
    setCachedData mediumQuota coldState.store [sampleRecord] =
        coldState.store ∧
    loadData mediumQuota (fun _ => .success [sampleRecord]) coldState =
      (.ok { coldState with
              tournaments := [sampleRecord],
              store := setCachedData mediumQuota coldState.store
                [sampleRecord] }, 1) := by
  have h := setCachedData_swallows_write_failure mediumQuota
    (fun _ => .success [sampleRecord]) coldState [sampleRecord] rfl rfl
  exact ⟨h.1 rfl, h.2⟩

/-- C1 counterexample: in the warm-start state whose Durable Store holds a
cached collection, with a network on which every attempt fails, `refresh()`
issues zero network attempts, returns the cached records through the
cache-hit path of `load()`, and ends with connection status `online` — not
a degraded/offline marking. This refutes the claim that `refresh()` always
attempts the network before consulting the cache and marks such a result
as degraded. -/
theorem refresh_prefers_cache_counterexample :
    (refreshData mediumOk failingNet warmState).2 = 0 ∧
    (refreshData mediumOk failingNet warmState).1.status = "online" ∧
    (refreshData mediumOk failingNet warmState).1.tournaments =
      [sampleRecord] :=
  ⟨rfl, rfl, rfl⟩

/-- C1 amended: `refresh()` delegates to `load()`, which is cache-first: in
every warm-start state whose Durable Store holds a cached collection —
whatever the network does — `refresh()` consults the cache first, returns
the cached records with zero network attempts, and marks the connection
status `online`, not degraded/offline. -/
theorem refresh_cache_first_amended (m : StorageMedium)
    (net : Nat → NetAttempt) (s : AppState) (cached : List Tournament)
    (hstore : getCachedData s.store = some cached) :
    refreshData m net s =
      ({ s with tournaments := cached, status := "online" }, 0) := by
  simp [refreshData, loadData, hstore]

/-- Witness for C1 (amended) at the warm-start state with the failing
network. -/
theorem refresh_cache_first_amended_witness :
    refreshData mediumOk failingNet warmState =
      ({ warmState with tournaments := [sampleRecord],
                        status := "online" }, 0) :=
  refresh_cache_first_amended mediumOk failingNet warmState [sampleRecord] rfl

/-- The dashboard's own data request: a GET for the tournament JSON. -/
def jsonDataReq : SWRequest :=
  { method := "GET", url := "./data/championships.json", mode := "cors",
    accept := some "*/*" }

/-- C5: classification is a total, deterministic pure function of the
request — `route` is a Lean function, so totality is by construction and
determinism is congruence — with precedence data check first, then static,
then navigation, else generic; and the `.json` URL under the data path is
classified Data even though the static predicate also matches it (its
`.json` suffix contains the `.js` needle of the static check). -/
theorem route_total_deterministic_precedence :
    (∀ r1 r2 : SWRequest, r1 = r2 → route r1 = route r2) ∧
    (∀ r : SWRequest, isDataRequest r = true → route r = .data) ∧
    (∀ r : SWRequest, isDataRequest r = false → isStaticResource r = true →
       route r = .staticAsset) ∧
    (∀ r : SWRequest, isDataRequest r = false → isStaticResource r = false →
       isNavigationRequest r = true → route r = .navigation) ∧
    (∀ r : SWRequest, isDataRequest r = false → isStaticResource r = false →
       isNavigationRequest r = false → route r = .generic) ∧
    (isDataRequest jsonDataReq = true ∧ isStaticResource jsonDataReq = true ∧
       route jsonDataReq = .data) := by
  refine ⟨fun r1 r2 h => by rw [h], ?_, ?_, ?_, ?_, ⟨by decide, by decide,
    by decide⟩⟩
  · intro r hd
    simp [route, hd]
  · intro r hd hs
    simp [route, hd, hs]
  · intro r hd hs hn
    simp [route, hd, hs, hn]
  · intro r hd hs hn
    simp [route, hd, hs, hn]

/-- Witness for C5 at the dashboard's own data request. -/
theorem route_total_deterministic_precedence_witness :
    route jsonDataReq = ReqClass.data :=
  route_total_deterministic_precedence.2.1 jsonDataReq (by decide)

/-- The empty cache storage (all three namespaces empty). -/
def emptyCaches : CacheState :=
  { dataCache := [], staticCache := [], genericCache := [] }

/-- A POST request to the data URL. -/
def postReqEx : SWRequest :=
  { method := "POST", url := "/data/championships.json", mode := "cors",
    accept := some "*/*" }

/-- C10: a request whose method is not GET is never classified, never
answered from a cache, and never causes a cache write: the listener does
not call `respondWith`, so it passes through to the network untouched and
every cache namespace is left exactly as it was. -/
theorem non_get_passthrough (net : SWNet) (st : CacheState) (r : SWRequest)
    (h : r.method ≠ "GET") :
    handleFetchEvent net st r = (.passthrough, st) := by
  have hb : (r.method == "GET") = false := by
    simp [h]
  simp [handleFetchEvent, hb]

/-- Witness for C10 at a concrete POST request over empty caches. -/
theorem non_get_passthrough_witness :
    handleFetchEvent (fun _ => none) emptyCaches postReqEx =
      (.passthrough, emptyCaches) :=
  non_get_passthrough (fun _ => none) emptyCaches postReqEx (by decide)

/-- A GET data request carrying no accept header at all
(`headers.get('accept')` is null). -/
def noAcceptReq : SWRequest :=
  { method := "GET", url := "./data/championships.json", mode := "cors",
    accept := none }

/-- C3: the claim says the Offline Responder produces some well-formed
response for every request, whether or not an Accept header is present —
and the code's final generic branch shows that intent — but both branch
conditions of `createOfflineResponse` read
`request.headers.get('accept').includes(…)` with no null guard, so at a
request with no Accept header the function throws a TypeError instead of
returning a response: the code contradicts the claim at this input. -/
theorem offline_responder_missing_accept_throws :
    createOfflineResponse noAcceptReq =
      .error "TypeError: cannot read includes of null" ∧
    ∀ resp : SWResponse, createOfflineResponse noAcceptReq ≠ .ok resp := by
  refine ⟨rfl, fun resp h => ?_⟩
  rw [show createOfflineResponse noAcceptReq =
    .error "TypeError: cannot read includes of null" from rfl] at h
  exact Except.noConfusion h

/-- C2 counterexample: the offline structured-data payload is the JSON
object `{"error": "Offline", "data": []}`; it parses, but as an object, not
as a JSON array — the structural shape of a normal successful payload (a
bare `[]` does have that shape) — so the structured-data half of the claim
fails and callers do need special-case parsing. -/
theorem offline_json_not_array_counterexample :
    parseJson offlineJsonBody =
      some (.jobj [("error", .jstr "Offline"), ("data", .jarr [])]) ∧
    hasEmptyRecordArrayShape offlineJsonBody = false ∧
    hasEmptyRecordArrayShape "[]" = true :=
  ⟨rfl, rfl, rfl⟩

/-- C2 amended: for a markup-kind request that neither network nor cache
can satisfy, the result is well-formed markup containing a retry action (as
claimed); for a structured-data-kind request, the synthesized payload is
the JSON object `{"error": "Offline", "data": []}` whose `data` field holds
zero records — not a bare JSON array like a normal successful payload. -/
theorem offline_responder_shapes_amended (r : SWRequest) (a : String)
    (hacc : r.accept = some a) :
    (strContains a "text/html" = true →
       createOfflineResponse r = .ok offlineHtmlResponse ∧
       isWellFormedMarkup offlineHtmlResponse.body = true ∧
       hasRetryAction offlineHtmlResponse.body = true) ∧
    (strContains a "text/html" = false →
     strContains a "application/json" = true →
       createOfflineResponse r = .ok offlineJsonResponse ∧
       parseJson offlineJsonResponse.body =
         some (.jobj [("error", .jstr "Offline"), ("data", .jarr [])]) ∧
       hasEmptyRecordArrayShape offlineJsonResponse.body = false) := by
  constructor
  · intro hh
    exact ⟨by simp [createOfflineResponse, hacc, hh], by decide, by decide⟩
  · intro hh hj
    exact ⟨by simp [createOfflineResponse, hacc, hh, hj], rfl, rfl⟩

/-- A navigation-style request accepting HTML. -/
def htmlAcceptReq : SWRequest :=
  { method := "GET", url := "/our-story.html", mode := "navigate",
    accept := some "text/html" }

/-- A structured-data request accepting JSON. -/
def jsonAcceptReq : SWRequest :=
  { method := "GET", url := "./data/championships.json", mode := "cors",
    accept := some "application/json" }

/-- Witness for C2 (amended) at concrete HTML- and JSON-accepting
requests. -/
theorem offline_responder_shapes_amended_witness :
    createOfflineResponse htmlAcceptReq = .ok offlineHtmlResponse ∧
    createOfflineResponse jsonAcceptReq = .ok offlineJsonResponse :=
  ⟨((offline_responder_shapes_amended htmlAcceptReq "text/html" rfl).1
      (by decide)).1,
   ((offline_responder_shapes_amended jsonAcceptReq "application/json"
      rfl).2 (by decide) (by decide)).1⟩

/-- C6 counterexample: a Data-class request carrying no Accept header, with
a rejecting network and empty caches: instead of producing an Offline
Response, `handleDataRequest` propagates the TypeError thrown inside the
offline responder, so the third clause of the claim fails as universally
stated. -/
theorem data_request_offline_no_accept_counterexample :
    (handleDataRequest (fun _ => none) emptyCaches noAcceptReq).1 =
      .error "TypeError: cannot read includes of null" ∧
    ∀ resp : SWResponse,
      (handleDataRequest (fun _ => none) emptyCaches noAcceptReq).1 ≠
        .ok resp := by
  refine ⟨rfl, fun resp h => ?_⟩
  rw [show (handleDataRequest (fun _ => none) emptyCaches noAcceptReq).1 =
    .error "TypeError: cannot read includes of null" from rfl] at h
  exact Except.noConfusion h

/-- C6 amended: for every Data-class request, on network success the data
namespace entry is overwritten to equal the new payload and the network
response is returned; on network failure (rejected fetch, or non-2xx
response) with a prior cached entry, the cached entry is returned and the
cache state is unchanged; with neither network nor cached entry the offline
responder's result is returned, and it is an Offline Response provided the
request carries an Accept header (without one the offline synthesis itself
throws — see the counterexample). -/
theorem handleDataRequest_strategy_amended (net : SWNet) (st : CacheState)
    (r : SWRequest) :
    (∀ resp, net r.url = some resp → respOk resp = true →
       handleDataRequest net st r =
         (.ok resp,
          { st with dataCache := cachePut st.dataCache r.url resp }) ∧
       (cachePut st.dataCache r.url resp).lookup r.url = some resp) ∧
    (∀ cached, net r.url = none → cachesMatch st r.url = some cached →
       handleDataRequest net st r = (.ok cached, st)) ∧
    (∀ resp cached, net r.url = some resp → respOk resp = false →
       cachesMatch st r.url = some cached →
       handleDataRequest net st r = (.ok cached, st)) ∧
    (∀ a, net r.url = none → cachesMatch st r.url = none →
       r.accept = some a →
       handleDataRequest net st r = (createOfflineResponse r, st) ∧
       ∃ resp, createOfflineResponse r = .ok resp) := by
  refine ⟨?_, ?_, ?_, ?_⟩
  · intro resp hn hok
    exact ⟨by simp [handleDataRequest, hn, hok],
      by simp [cachePut, List.lookup]⟩
  · intro cached hn hc
    simp [handleDataRequest, dataFallback, hn, hc]
  · intro resp cached hn hok hc
    simp [handleDataRequest, dataFallback, hn, hok, hc]
  · intro a hn hc hacc
    refine ⟨by simp [handleDataRequest, dataFallback, hn, hc], ?_⟩
    cases h1 : strContains a "text/html" with
    | true =>
      exact ⟨offlineHtmlResponse, by simp [createOfflineResponse, hacc, h1]⟩
    | false =>
      cases h2 : strContains a "application/json" with
      | true =>
        exact ⟨offlineJsonResponse,
          by simp [createOfflineResponse, hacc, h1, h2]⟩
      | false =>
        exact ⟨offlineGenericResponse,
          by simp [createOfflineResponse, hacc, h1, h2]⟩

/-- A fresh ok network response for the data URL. -/
def dataRespEx : SWResponse :=
  { status := 200, statusText := "OK", contentType := "application/json",
    body := "[]" }

/-- Witness for C6 (amended): a successful fetch of the data URL over empty
caches writes through to the data namespace and returns the response. -/
theorem handleDataRequest_strategy_amended_witness :
    handleDataRequest (fun _ => some dataRespEx) emptyCaches jsonDataReq =
      (.ok dataRespEx,
       { emptyCaches with
           dataCache :=
             cachePut emptyCaches.dataCache jsonDataReq.url dataRespEx }) :=
  ((handleDataRequest_strategy_amended (fun _ => some dataRespEx)
      emptyCaches jsonDataReq).1 dataRespEx rfl (by decide)).1

/-- Helper: the data strategy never touches the static or generic caches. -/
theorem handleDataRequest_preserves (net : SWNet) (st : CacheState)
    (r : SWRequest) :
    (handleDataRequest net st r).2.staticCache = st.staticCache ∧
    (handleDataRequest net st r).2.genericCache = st.genericCache := by
  unfold handleDataRequest dataFallback
  cases hn : net r.url with
  | none => cases hc : cachesMatch st r.url <;> simp
  | some resp =>
    by_cases hok : respOk resp = true
    · simp [hok]
    · cases hc : cachesMatch st r.url <;> simp [hok]

/-- Helper: the static strategy never touches the data or generic caches. -/
theorem handleStaticRequest_preserves (net : SWNet) (st : CacheState)
    (r : SWRequest) :
    (handleStaticRequest net st r).2.dataCache = st.dataCache ∧
    (handleStaticRequest net st r).2.genericCache = st.genericCache := by
  unfold handleStaticRequest
  cases hc : cachesMatch st r.url with
  | some cached => simp
  | none =>
    cases hn : net r.url with
    | none => simp
    | some resp => by_cases hok : respOk resp = true <;> simp [hok]

/-- Helper: the navigation strategy never touches the data or generic
caches (its successful responses go into the static cache). -/
theorem handleNavigationRequest_preserves (net : SWNet) (st : CacheState)
    (r : SWRequest) :
    (handleNavigationRequest net st r).2.dataCache = st.dataCache ∧
    (handleNavigationRequest net st r).2.genericCache = st.genericCache := by
  unfold handleNavigationRequest navFallback
  cases hn : net r.url with
  | some resp =>
    by_cases hok : respOk resp = true
    · simp [hok]
    · cases hc : cachesMatch st r.url with
      | some c => simp [hok]
      | none => cases hi : cachesMatch st "/index.html" <;> simp [hok]
  | none =>
    cases hc : cachesMatch st r.url with
    | some c => simp
    | none => cases hi : cachesMatch st "/index.html" <;> simp

/-- Helper: the generic strategy never touches the data or static caches. -/
theorem handleGenericRequest_preserves (net : SWNet) (st : CacheState)
    (r : SWRequest) :
    (handleGenericRequest net st r).2.dataCache = st.dataCache ∧
    (handleGenericRequest net st r).2.staticCache = st.staticCache := by
  unfold handleGenericRequest
  cases hn : net r.url with
  | some resp => by_cases hok : respOk resp = true <;> simp [hok]
  | none => cases hc : cachesMatch st r.url <;> simp

/-- A navigation request with a successful network response. -/
def navReqEx : SWRequest :=
  { method := "GET", url := "/our-story.html", mode := "navigate",
    accept := some "text/html" }

/-- The network response for the navigation request. -/
def navRespEx : SWResponse :=
  { status := 200, statusText := "OK", contentType := "text/html",
    body := "<!DOCTYPE html>" }

/-- C9 counterexample: a successful Navigation-class request is cached by
the Navigation strategy into the STATIC namespace (app.js lines 840-845),
so the static-resource namespace is not written only by the Static
strategy: the claim's write-authorization invariant fails. -/
theorem navigation_writes_static_cache_counterexample :
    route navReqEx = .navigation ∧
    route navReqEx ≠ .staticAsset ∧
    (handleFetchEvent (fun _ => some navRespEx) emptyCaches
        navReqEx).2.staticCache = [("/our-story.html", navRespEx)] := by
  refine ⟨by decide, by decide, by decide⟩

/-- C9 amended: the data namespace is written only by the Data strategy and
the generic namespace only by the Generic strategy; the static-resource
namespace is written only by the Static and Navigation strategies (the
Navigation strategy caches successful navigation responses there). -/
theorem namespace_write_authorization_amended (net : SWNet) (st : CacheState)
    (r : SWRequest) :
    (route r ≠ .data →
       ((handleFetchEvent net st r).2).dataCache = st.dataCache) ∧
    (route r ≠ .staticAsset → route r ≠ .navigation →
       ((handleFetchEvent net st r).2).staticCache = st.staticCache) ∧
    (route r ≠ .generic →
       ((handleFetchEvent net st r).2).genericCache = st.genericCache) := by
  by_cases hm : r.method = "GET"
  · have hb : (r.method == "GET") = true := by simp [hm]
    cases hr : route r with
    | data =>
      refine ⟨fun h => absurd rfl h, fun _ _ => ?_, fun _ => ?_⟩
      · simp [handleFetchEvent, hb, hr,
          (handleDataRequest_preserves net st r).1]
      · simp [handleFetchEvent, hb, hr,
          (handleDataRequest_preserves net st r).2]
    | staticAsset =>
      refine ⟨fun _ => ?_, fun h _ => absurd rfl h, fun _ => ?_⟩
      · simp [handleFetchEvent, hb, hr,
          (handleStaticRequest_preserves net st r).1]
      · simp [handleFetchEvent, hb, hr,
          (handleStaticRequest_preserves net st r).2]
    | navigation =>
      refine ⟨fun _ => ?_, fun _ h => absurd rfl h, fun _ => ?_⟩
      · simp [handleFetchEvent, hb, hr,
          (handleNavigationRequest_preserves net st r).1]
      · simp [handleFetchEvent, hb, hr,
          (handleNavigationRequest_preserves net st r).2]
    | generic =>
      refine ⟨fun _ => ?_, fun _ _ => ?_, fun h => absurd rfl h⟩
      · simp [handleFetchEvent, hb, hr,
          (handleGenericRequest_preserves net st r).1]
      · simp [handleFetchEvent, hb, hr,
          (handleGenericRequest_preserves net st r).2]
  · have hb : (r.method == "GET") = false := by simp [hm]
    simp [handleFetchEvent, hb]

/-- A Generic-class request (no data path, no static extension, no
navigation intent). -/
def genericReqEx : SWRequest :=
  { method := "GET", url := "/api/ping", mode := "cors",
    accept := some "*/*" }

/-- Witness for C9 (amended): a Generic-class request over empty caches
leaves the data namespace untouched. -/
theorem namespace_write_authorization_amended_witness :
    ((handleFetchEvent (fun _ => none) emptyCaches genericReqEx).2).dataCache
      = [] :=
  (namespace_write_authorization_amended (fun _ => none) emptyCaches
    genericReqEx).1 (by decide)
